import Mathlib

/-!
Shallow embedding of the core of `ink-llm-console` (provider-abstraction and
session-state layer) for verification: the data model from
`src/types/index.ts`, the `LLMService` class from `src/services/llmService.ts`
(config update, message preparation, transcript persistence), and the
settings-save logic from `src/components/SettingsInterface.tsx`.

Conventions of the embedding:
- TypeScript optional fields become `Option`; JavaScript truthiness tests on
  strings (`s || d`, `if (s)`) are modelled by explicit emptiness checks.
- `number` values become `ℚ` (temperature) or `ℤ` (token counts); the numeric
  parse failures (`NaN`) become `none` of an `Option`.
- Object identity, where a claim depends on it (adapter reconstruction,
  config aliasing), is modelled by an explicit generation counter or by an
  explicit cell store with numeric references; values stay pure otherwise.
- The filesystem and the wall clock are passed in as explicit arguments
  (write outcomes, ISO timestamp strings).
-/

namespace InkLLM

/-- Message roles, from `src/types/index.ts` (`'user' | 'assistant' | 'system'`). -/
inductive Role where
  | user
  | assistant
  | system
deriving DecidableEq, Repr

/-- A chat message, from `src/types/index.ts` (`interface Message`). -/
structure Message where
  role : Role
  content : String
deriving DecidableEq, Repr

/-- Provider identifiers, from `src/types/index.ts` (`'anthropic' | 'openai'`). -/
inductive Provider where
  | anthropic
  | openai
deriving DecidableEq, Repr

/-- The string form of a provider, as interpolated by the TypeScript code. -/
def Provider.name : Provider → String
  | .anthropic => "anthropic"
  | .openai => "openai"

/-- Provider configuration, from `src/types/index.ts` (`interface LLMConfig`).
`saveFormat` is kept as `Option String` because the code only ever compares it
against the literal `'markdown'`, and the claims quantify over arbitrary
runtime values. -/
structure LLMConfig where
  provider : Provider
  model : String
  apiKey : Option String
  temperature : ℚ
  maxTokens : ℤ
  systemPrompt : Option String
  saveDirectory : Option String
  saveFormat : Option String
deriving DecidableEq, Repr

/-- JavaScript truthiness of a string: falsy exactly when empty. -/
def strTruthy (s : String) : Bool := s != ""

/-- JavaScript truthiness of an optional string: falsy when `undefined` or empty. -/
def optStrTruthy : Option String → Bool
  | none => false
  | some s => strTruthy s

/-- JavaScript `a || b` on an optional string `a` with string default `b`. -/
def jsStrOr (a : Option String) (b : String) : String :=
  match a with
  | some s => if strTruthy s then s else b
  | none => b

/-- JavaScript `a || b` where both sides are optional strings
(`config.apiKey || process.env.X`). -/
def jsOptOr (a b : Option String) : Option String :=
  match a with
  | some s => if strTruthy s then some s else b
  | none => b

/-- The relevant part of `process.env` read by `llmService.ts`. -/
structure Env where
  anthropicApiKey : Option String
  openaiApiKey : Option String
  chatSaveDirectory : Option String
  chatSaveFormatIsMarkdown : Bool
deriving DecidableEq, Repr

/-- Registry of selectable models per provider: `availableModels` in
`src/services/llmService.ts`. -/
def availableModels : Provider → List String
  | .anthropic =>
    ["claude-3-7-sonnet-20250219",
     "claude-3-5-haiku-20241022",
     "claude-3-5-sonnet-20241022",
     "claude-3-5-sonnet-20240620",
     "claude-3-opus-20240229",
     "claude-3-sonnet-20240229",
     "claude-3-haiku-20240307"]
  | .openai =>
    ["gpt-4-turbo", "gpt-4o", "gpt-4", "gpt-3.5-turbo"]

/-- `defaultConfig` from `src/services/llmService.ts`, with the environment
made explicit (`saveDirectory`/`saveFormat` read `process.env`). -/
def defaultConfig (env : Env) : LLMConfig where
  provider := .anthropic
  model := "claude-3-opus-20240229"
  apiKey := none
  temperature := 7/10
  maxTokens := 1000
  systemPrompt := some "You are a helpful AI assistant."
  saveDirectory := some (jsStrOr env.chatSaveDirectory "./chats")
  saveFormat := some (if env.chatSaveFormatIsMarkdown then "markdown" else "json")

/-- Parameters with which a `ChatAnthropic` / `ChatOpenAI` object is
constructed in `llmService.ts` (the fields the constructor call passes). -/
structure ModelParams where
  provider : Provider
  apiKey : Option String
  modelName : String
  temperature : ℚ
  maxTokens : ℤ
deriving DecidableEq, Repr

/-- The `new ChatAnthropic({...})` / `new ChatOpenAI({...})` construction in
the `LLMService` constructor and in `updateConfig` (identical in both). -/
def buildModel (env : Env) (config : LLMConfig) : ModelParams :=
  match config.provider with
  | .anthropic =>
    { provider := .anthropic
      apiKey := jsOptOr config.apiKey env.anthropicApiKey
      modelName := jsStrOr (some config.model) "claude-3-opus-20240229"
      temperature := config.temperature
      maxTokens := config.maxTokens }
  | .openai =>
    { provider := .openai
      apiKey := jsOptOr config.apiKey env.openaiApiKey
      modelName := jsStrOr (some config.model) "gpt-4-turbo"
      temperature := config.temperature
      maxTokens := config.maxTokens }

/-- The `LLMService` instance state: its `config` and `model` fields.
`modelGen` counts how many times a model object has been constructed
(`new ChatAnthropic(...)` / `new ChatOpenAI(...)`), so that "the binding was
reconstructed" is expressible: every construction increments it. -/
structure LLMService where
  config : LLMConfig
  model : ModelParams
  modelGen : ℕ
deriving DecidableEq, Repr

/-- The `LLMService` constructor. -/
def LLMService.init (env : Env) (config : LLMConfig) : LLMService where
  config := config
  model := buildModel env config
  modelGen := 0

/-- `Partial<LLMConfig>`: a field is `some v` exactly when the caller passed
it with a value `!== undefined`. -/
structure ConfigPatch where
  provider : Option Provider := none
  model : Option String := none
  apiKey : Option (Option String) := none
  temperature : Option ℚ := none
  maxTokens : Option ℤ := none
  systemPrompt : Option (Option String) := none
  saveDirectory : Option (Option String) := none
  saveFormat : Option (Option String) := none
deriving DecidableEq, Repr

/-- The field-by-field merge inside `LLMService.updateConfig`
(`if (newConfig.x !== undefined) updatedConfig.x = newConfig.x`). -/
def mergeConfig (config : LLMConfig) (newConfig : ConfigPatch) : LLMConfig where
  provider := newConfig.provider.getD config.provider
  model := newConfig.model.getD config.model
  apiKey := newConfig.apiKey.getD config.apiKey
  temperature := newConfig.temperature.getD config.temperature
  maxTokens := newConfig.maxTokens.getD config.maxTokens
  systemPrompt := newConfig.systemPrompt.getD config.systemPrompt
  saveDirectory := newConfig.saveDirectory.getD config.saveDirectory
  saveFormat := newConfig.saveFormat.getD config.saveFormat

/-- `LLMService.updateConfig`: merge the provided fields, install the merged
config (the `JSON.parse(JSON.stringify(...))` deep copy is the identity on
values), then unconditionally reconstruct the model object — the
`new ChatAnthropic/ChatOpenAI` call at the end of `updateConfig` runs on
every call, so `modelGen` always increments. -/
def LLMService.updateConfig (env : Env) (s : LLMService) (newConfig : ConfigPatch) :
    LLMService :=
  let merged := mergeConfig s.config newConfig
  { config := merged
    model := buildModel env merged
    modelGen := s.modelGen + 1 }

/-! ## sendMessage: message preparation (`LLMService.sendMessage`) -/

/-- A LangChain message object, the shape actually handed to
`this.model.invoke` (`HumanMessage` / `AIMessage` / `SystemMessage`). -/
inductive LCMessage where
  | human (content : String)
  | ai (content : String)
  | system (content : String)
deriving DecidableEq, Repr

/-- `convertToLangChainMessages` on a single message. -/
def convertMessage (msg : Message) : LCMessage :=
  match msg.role with
  | .user => .human msg.content
  | .assistant => .ai msg.content
  | .system => .system msg.content

/-- The message sequence `sendMessage` passes to `this.model.invoke`: convert
the conversation, then prepend a synthetic system message when
`this.config.systemPrompt` is truthy and no message of the conversation has
role `system`. -/
def sentMessages (config : LLMConfig) (messages : List Message) : List LCMessage :=
  let langchainMessages := messages.map convertMessage
  if optStrTruthy config.systemPrompt &&
      !(messages.any fun msg => msg.role == Role.system) then
    .system (config.systemPrompt.getD "") :: langchainMessages
  else
    langchainMessages

/-- One `sendMessage` call viewed from the caller: the sequence sent to the
provider, paired with the caller's conversation array after the call.
`sendMessage` only reads `messages` (`map`, `some`, spread into a fresh
array), never writes through it, so the array after the call is the input. -/
def sendMessageCall (config : LLMConfig) (messages : List Message) :
    List LCMessage × List Message :=
  (sentMessages config messages, messages)

/-! ## saveChat: filename, encodings, error wrapping (`LLMService.saveChat`) -/

/-- `new Date().toISOString().replace(/[:.]/g, '-')`: the ISO timestamp with
every `:` and `.` replaced by `-`. -/
def sanitizeTimestamp (iso : String) : String :=
  String.mk (iso.data.map fun c => if c == ':' || c == '.' then '-' else c)

/-- Whether a character matches the regex class `[^a-z0-9]` with the `i` flag
negated away: an ASCII letter (either case) or digit. -/
def isSlugKeep (c : Char) : Bool :=
  (97 ≤ c.toNat && c.toNat ≤ 122) || (65 ≤ c.toNat && c.toNat ≤ 90) ||
    (48 ≤ c.toNat && c.toNat ≤ 57)

/-- ASCII lower-casing of one character (`String.prototype.toLowerCase` on the
ASCII range; after the replacement step only ASCII alphanumerics and `-`
remain, so the ASCII case suffices). -/
def asciiLower (c : Char) : Char :=
  if 65 ≤ c.toNat && c.toNat ≤ 90 then Char.ofNat (c.toNat + 32) else c

/-- `title.replace(/[^a-z0-9]/gi, '-').toLowerCase()`. -/
def slugify (title : String) : String :=
  String.mk ((title.data.map fun c => if isSlugKeep c then c else '-').map asciiLower)

/-- `formatToUse`: `saveFormat === 'markdown' ? 'markdown' : 'json'`. -/
def formatToUse (saveFormat : Option String) : String :=
  if saveFormat == some "markdown" then "markdown" else "json"

/-- `fileExtension`: `formatToUse === 'markdown' ? 'md' : 'json'`. -/
def fileExtension (saveFormat : Option String) : String :=
  if formatToUse saveFormat == "markdown" then "md" else "json"

/-- The filename built in `saveChat`: with a truthy title,
`` `${timestamp}-${slug}.${ext}` ``; otherwise `` `${timestamp}-chat.${ext}` ``. -/
def chatFilename (iso : String) (saveFormat : Option String)
    (title : Option String) : String :=
  let timestamp := sanitizeTimestamp iso
  let ext := fileExtension saveFormat
  match title with
  | some t =>
    if strTruthy t then timestamp ++ "-" ++ slugify t ++ "." ++ ext
    else timestamp ++ "-chat." ++ ext
  | none => timestamp ++ "-chat." ++ ext

/-- The save directory: `this.config.saveDirectory ||
process.env.CHAT_SAVE_DIRECTORY || './chats'`. -/
def resolveSaveDir (config : LLMConfig) (env : Env) : String :=
  jsStrOr config.saveDirectory (jsStrOr env.chatSaveDirectory "./chats")

/-- `path.join(saveDir, filename)`: joins with `/` and normalizes away a
leading `./` segment. -/
def pathJoin (dir file : String) : String :=
  let stripped : List Char :=
    match dir.data with
    | '.' :: '/' :: rest => rest
    | other => other
  String.mk stripped ++ "/" ++ file

/-- One markdown section of the transcript, per the role `switch` in
`saveChat`. -/
def markdownSection (msg : Message) : String :=
  match msg.role with
  | .system => "## System\n\n" ++ msg.content ++ "\n\n---\n\n"
  | .user => "## User\n\n" ++ msg.content ++ "\n\n---\n\n"
  | .assistant => "## Assistant\n\n" ++ msg.content ++ "\n\n---\n\n"

/-- The markdown document `saveChat` writes: title line with the
locale-formatted date, model/provider line, separator, then one section per
message in conversation order. -/
def markdownContent (formattedDate : String) (config : LLMConfig)
    (messages : List Message) : String :=
  "# Chat - " ++ formattedDate ++ "\n\n" ++
    "**Model**: " ++ config.model ++ " (" ++ config.provider.name ++ ")\n\n" ++
    "---\n\n" ++
    String.join (messages.map markdownSection)

/-! ### The JSON value written in json format -/

/-- JSON values, restricted to the constructors `saveChat`'s `chatData`
object actually uses (strings, arrays, string-keyed objects). -/
inductive Json where
  | str (s : String)
  | arr (elems : List Json)
  | obj (fields : List (String × Json))
deriving Repr

/-- Field lookup on a parsed JSON object. -/
def Json.getField (j : Json) (key : String) : Option Json :=
  match j with
  | .obj fields => (fields.find? fun f => f.1 == key).map (·.2)
  | _ => none

/-- Extract a JSON string. -/
def Json.asStr : Json → Option String
  | .str s => some s
  | _ => none

/-- The string form of a role, as `JSON.stringify` serializes the `role`
field (TypeScript string-literal union). -/
def Role.name : Role → String
  | .user => "user"
  | .assistant => "assistant"
  | .system => "system"

/-- Read a role back from its string form. -/
def decodeRole (s : String) : Option Role :=
  if s == "user" then some .user
  else if s == "assistant" then some .assistant
  else if s == "system" then some .system
  else none

/-- One message as serialized inside `chatData.messages`. -/
def messageJson (msg : Message) : Json :=
  .obj [("role", .str msg.role.name), ("content", .str msg.content)]

/-- The `chatData` object `saveChat` stringifies in json format:
`{timestamp, model, provider, messages}`. -/
def chatDataJson (iso : String) (config : LLMConfig) (messages : List Message) :
    Json :=
  .obj [("timestamp", .str iso),
        ("model", .str config.model),
        ("provider", .str config.provider.name),
        ("messages", .arr (messages.map messageJson))]

/-- Re-parse one message object from the written JSON. -/
def decodeMessage (j : Json) : Option Message := do
  let role ← (← j.getField "role").asStr
  let role ← decodeRole role
  let content ← (← j.getField "content").asStr
  pure ⟨role, content⟩

/-- Re-parse a list of message objects, failing if any element fails. -/
def decodeMessageList : List Json → Option (List Message)
  | [] => some []
  | j :: js => do
    let m ← decodeMessage j
    let ms ← decodeMessageList js
    pure (m :: ms)

/-- Re-parse the `messages` field of the written JSON file. -/
def decodeMessages (j : Json) : Option (List Message) :=
  match j.getField "messages" with
  | some (.arr elems) => decodeMessageList elems
  | _ => none

/-! ### saveChat with the filesystem passed in -/

/-- What `fs.writeFileSync` receives as its second argument: markdown text,
or the `chatData` value handed to `JSON.stringify` (the stringify/parse pair
of the JavaScript runtime is treated as the identity on JSON values). -/
inductive FileContent where
  | markdown (text : String)
  | json (value : Json)
deriving Repr

/-- `saveChat`, with the filesystem and clock explicit: the `mkdir` and
`writeFileSync` outcomes are arguments (`Except.error e` models a thrown
filesystem error whose message is `e`). Mirrors the `try`/`catch`: any throw
inside the block is wrapped into `` `Failed to save chat: ${error.message}` ``;
on success the file path is returned. -/
def saveChat (config : LLMConfig) (env : Env) (iso formattedDate : String)
    (messages : List Message) (title : Option String)
    (mkdirResult : Except String Unit)
    (writeResult : String → FileContent → Except String Unit) :
    Except String String :=
  let attempt : Except String String :=
    match mkdirResult with
    | .error e => .error e
    | .ok _ =>
      let filename := chatFilename iso config.saveFormat title
      let filePath := pathJoin (resolveSaveDir config env) filename
      let content :=
        if formatToUse config.saveFormat == "markdown" then
          FileContent.markdown (markdownContent formattedDate config messages)
        else
          FileContent.json (chatDataJson iso config messages)
      match writeResult filePath content with
      | .error e => .error e
      | .ok _ => .ok filePath
  match attempt with
  | .ok p => .ok p
  | .error e => .error ("Failed to save chat: " ++ e)

/-! ## Settings save logic (`SettingsInterface.tsx`) -/

/-- The decimal numeric prefix `parseFloat` recognizes: skip leading
whitespace, optional sign, integer digits, optional `.` and fraction digits;
`none` models `NaN` (no digit in the numeric prefix). The result is
(negative?, integer-part value, fraction-part value, fraction digit count).
Exponent suffixes are outside the inputs this repository's claims quantify
over and are not modelled. -/
def parseFloatParts (s : String) : Option (Bool × ℕ × ℕ × ℕ) :=
  let cs0 := s.data.dropWhile Char.isWhitespace
  let neg : Bool := match cs0 with | '-' :: _ => true | _ => false
  let cs := match cs0 with
    | '-' :: rest => rest
    | '+' :: rest => rest
    | _ => cs0
  let intPart := cs.takeWhile Char.isDigit
  let rest := cs.dropWhile Char.isDigit
  let fracPart := match rest with
    | '.' :: rest2 => rest2.takeWhile Char.isDigit
    | _ => []
  if intPart.isEmpty && fracPart.isEmpty then none
  else
    some (neg,
      intPart.foldl (fun a c => 10 * a + (c.toNat - 48)) 0,
      fracPart.foldl (fun a c => 10 * a + (c.toNat - 48)) 0,
      fracPart.length)

/-- `parseFloat`: the recognized numeric prefix as a rational, `none` for
`NaN`. -/
def parseFloatJS (s : String) : Option ℚ :=
  (parseFloatParts s).map fun p =>
    (if p.1 then (-1 : ℚ) else 1) * ((p.2.1 : ℚ) + (p.2.2.1 : ℚ) / (10 : ℚ) ^ p.2.2.2)

/-- `parseInt` with no radix argument, on decimal input: skip leading
whitespace, optional sign, integer digits; `none` models `NaN`. (The `0x`
hex prefix is outside the inputs the claims quantify over.) -/
def parseIntJS (s : String) : Option ℤ :=
  let cs0 := s.data.dropWhile Char.isWhitespace
  let sign : ℤ := match cs0 with | '-' :: _ => -1 | _ => 1
  let cs := match cs0 with
    | '-' :: rest => rest
    | '+' :: rest => rest
    | _ => cs0
  let digits := cs.takeWhile Char.isDigit
  if digits.isEmpty then none
  else some (sign * (digits.foldl (fun a c => 10 * a + (c.toNat - 48)) 0 : ℕ))

/-- JavaScript `x || d` on a number that may be `NaN` (`none`): falsy exactly
when `NaN` or zero. -/
def jsNumOr (x : Option ℚ) (d : ℚ) : ℚ :=
  match x with
  | none => d
  | some v => if v = 0 then d else v

/-- JavaScript `x || d` on an integer that may be `NaN` (`none`). -/
def jsIntOr (x : Option ℤ) (d : ℤ) : ℤ :=
  match x with
  | none => d
  | some v => if v = 0 then d else v

/-- The temperature written by `saveSettings`:
`parseFloat(temperature) || 0.7`. -/
def settingsTemperature (input : String) : ℚ :=
  jsNumOr (parseFloatJS input) (7/10)

/-- The max-token count written by `saveSettings`:
`parseInt(maxTokens) || 1000`. -/
def settingsMaxTokens (input : String) : ℤ :=
  jsIntOr (parseIntJS input) 1000

/-- The model the settings view holds after a provider change: the
`useEffect` keyed on `provider` resets it to `availableModels[provider][0]`
whenever the current model is not in the new provider's list. -/
def settingsModelFor (provider : Provider) (model : String) : String :=
  if model ∈ availableModels provider then model
  else (availableModels provider).headD ""

/-- The `newConfig` object `saveSettings` builds from the edit-field states
and passes to `updateConfig` (after a value-preserving
`JSON.parse(JSON.stringify(...))`). All fields are present, so every field of
the partial update is `some`. -/
def saveSettingsInput (oldConfig : LLMConfig) (provider : Provider)
    (model apiKey temperature maxTokens systemPrompt : String)
    (saveFormat : String) : ConfigPatch where
  provider := some provider
  model := some model
  apiKey := some (if strTruthy apiKey then some apiKey else none)
  temperature := some (settingsTemperature temperature)
  maxTokens := some (settingsMaxTokens maxTokens)
  systemPrompt := some (if strTruthy systemPrompt then some systemPrompt else none)
  saveDirectory := some oldConfig.saveDirectory
  saveFormat := some (some saveFormat)

/-- A provider switch carried out through the settings view: the provider
select fires, the `useEffect` re-validates the model state, and
`saveSettings` submits the result through `updateConfig`. Non-provider
fields keep the values loaded from the current config. -/
def settingsSwitchProvider (env : Env) (s : LLMService) (newProvider : Provider)
    (temperatureInput maxTokensInput : String) : LLMService :=
  let cfg := s.config
  let model := settingsModelFor newProvider cfg.model
  s.updateConfig env
    (saveSettingsInput cfg newProvider model (cfg.apiKey.getD "")
      temperatureInput maxTokensInput (cfg.systemPrompt.getD "")
      (jsStrOr cfg.saveFormat "json"))

/-! ## Reference-level view of the config cell (`getConfig` aliasing) -/

/-- The service's config viewed at the JavaScript object level: a store of
config objects addressed by reference, with `live` the reference held in
`this.config`. `getConfig` returns `this.config` itself — the same
reference — so the caller and the service alias one object until
`updateConfig` installs a fresh deep copy in a new cell. -/
structure ConfigStore where
  cells : List LLMConfig
  live : ℕ
deriving DecidableEq, Repr

/-- Dereference a config object reference. -/
def ConfigStore.deref (st : ConfigStore) (r : ℕ) : LLMConfig :=
  st.cells.getD r (defaultConfig ⟨none, none, none, false⟩)

/-- `getConfig()`: `return this.config` — the reference, not a copy. -/
def ConfigStore.getConfigRef (st : ConfigStore) : ℕ := st.live

/-- A caller mutating a field through a config reference it holds
(JavaScript objects are mutable; the store cell is updated in place). -/
def ConfigStore.mutate (st : ConfigStore) (r : ℕ) (f : LLMConfig → LLMConfig) :
    ConfigStore :=
  { st with cells := st.cells.set r (f (st.deref r)) }

/-- `updateConfig` at the object level: `this.config =
JSON.parse(JSON.stringify(updatedConfig))` allocates a fresh object in a new
cell and repoints `this.config` at it; no previously handed-out reference is
touched. -/
def ConfigStore.updateConfig (st : ConfigStore) (newConfig : ConfigPatch) :
    ConfigStore :=
  { cells := st.cells ++ [mergeConfig (st.deref st.live) newConfig]
    live := st.cells.length }

/-! ## Shared concrete inputs and helper lemmas -/

/-- An environment with no API keys and no save-directory or format
overrides. -/
def env0 : Env := ⟨none, none, none, false⟩

/-- A freshly constructed service on the default configuration. -/
def service0 : LLMService := LLMService.init env0 (defaultConfig env0)

/-- The configuration of the spec's concrete save scenario: provider
anthropic, model `m1`, temperature 0.7, maxTokens 1000, markdown save
format. -/
def scenarioConfig : LLMConfig where
  provider := .anthropic
  model := "m1"
  apiKey := none
  temperature := 7/10
  maxTokens := 1000
  systemPrompt := none
  saveDirectory := none
  saveFormat := some "markdown"

/-- A one-cell store holding the default config, with `this.config` pointing
at it. -/
def store0 : ConfigStore := ⟨[defaultConfig env0], 0⟩

/-- Whether `needle` occurs at the start of `hay`. -/
def leadingMatch : List Char → List Char → Bool
  | [], _ => true
  | _ :: _, [] => false
  | n :: ns, h :: hs => n == h && leadingMatch ns hs

/-- Whether `needle` occurs anywhere inside `hay`. -/
def occursIn (needle hay : List Char) : Bool :=
  match hay with
  | [] => needle.isEmpty
  | _ :: t => leadingMatch needle hay || occursIn needle t

/-- A string-containment test: whether `needle` is a substring of `hay`. -/
def strContainsSub (hay needle : String) : Bool :=
  occursIn needle.data hay.data

/-- The model held by the settings view after a provider change is always in
the selected provider's registry list. -/
theorem settingsModelFor_mem (p : Provider) (m : String) :
    settingsModelFor p m ∈ availableModels p := by
  unfold settingsModelFor
  split
  · assumption
  · cases p <;> decide

/-- The constructor parameters of the model binding depend only on provider,
apiKey, model, temperature and maxTokens. -/
theorem buildModel_eq_of_fields (env : Env) (c1 c2 : LLMConfig)
    (hp : c1.provider = c2.provider) (hm : c1.model = c2.model)
    (hk : c1.apiKey = c2.apiKey) (ht : c1.temperature = c2.temperature)
    (hx : c1.maxTokens = c2.maxTokens) : buildModel env c1 = buildModel env c2 := by
  unfold buildModel
  rw [hp]
  cases h2 : c2.provider <;> simp [hm, hk, ht, hx]

/-! ## C1: registry validation on provider switch -/

/-- C1, counterexample: `LLMService.updateConfig` itself performs no registry
validation. Switching the default service (model
`claude-3-opus-20240229`) to provider `openai` through `updateConfig` leaves
the old model in place even though it is not in the openai registry list —
contradicting the claim that after any `updateConfig` the model is never left
outside the new provider's registry list. -/
theorem C1_update_config_no_registry_validation :
    (service0.updateConfig env0 { provider := some Provider.openai }).config.provider
        = Provider.openai ∧
    (service0.updateConfig env0 { provider := some Provider.openai }).config.model
        = "claude-3-opus-20240229" ∧
    "claude-3-opus-20240229" ∉ availableModels Provider.openai :=
  ⟨rfl, rfl, by decide⟩

/-- C1, amended: the model reset on a provider switch is performed by the
settings view (the `useEffect` in `SettingsInterface.tsx`), not by
`updateConfig`. For a provider switch carried out through the settings view,
the resulting config's provider is the new provider, its model is always in
the new provider's registry list, and when the previous model is not in that
list the model becomes the list's first entry; the switch is a total
function (it never throws). -/
theorem C1_settings_switch_keeps_model_valid (env : Env) (s : LLMService)
    (p : Provider) (tIn mIn : String) :
    (settingsSwitchProvider env s p tIn mIn).config.provider = p ∧
    (settingsSwitchProvider env s p tIn mIn).config.model ∈ availableModels p ∧
    (s.config.model ∉ availableModels p →
      (settingsSwitchProvider env s p tIn mIn).config.model
        = (availableModels p).headD "") := by
  have hm : (settingsSwitchProvider env s p tIn mIn).config.model
      = settingsModelFor p s.config.model := rfl
  refine ⟨rfl, ?_, ?_⟩
  · rw [hm]
    exact settingsModelFor_mem p s.config.model
  · intro h
    rw [hm]
    unfold settingsModelFor
    simp [h]

/-- C1, witness: switching the default service to openai through the settings
view replaces the (foreign) model with the first entry of the openai
registry list. -/
theorem C1_settings_switch_witness :
    (settingsSwitchProvider env0 service0 Provider.openai "0.7" "1000").config.model
      = (availableModels Provider.openai).headD "" :=
  (C1_settings_switch_keeps_model_valid env0 service0 Provider.openai "0.7" "1000").2.2
    (by decide)

/-! ## C2: markdown save filename and content -/

/-- C2, counterexample: saving with title `Demo` in markdown format produces
the filename `<timestamp>-demo.md` — there is no `-chat` segment when a
title is given (the `-chat` suffix appears only in the title-less branch),
so the claimed shape `<timestamp>-demo-chat.md` is not produced. -/
theorem C2_titled_filename_has_no_chat_suffix :
    chatFilename "2025-01-01T00:00:00.000Z" (some "markdown") (some "Demo")
        = "2025-01-01T00-00-00-000Z-demo.md" ∧
    "2025-01-01T00-00-00-000Z-demo.md" ≠ "2025-01-01T00-00-00-000Z-demo-chat.md" :=
  ⟨rfl, by decide⟩

/-- C2, amended: with a (truthy) title the markdown filename is the sanitized
ISO timestamp, `-`, the slugified title, and the extension `.md` — with no
`-chat` segment; and the markdown content of the concrete scenario
(`[{user, "hi"}, {assistant, "hello"}]`, model `m1`) contains the headers
`## User` then `## Assistant` in that order with bodies `hi` and `hello`. -/
theorem C2_markdown_save_naming_and_content (iso t : String)
    (ht : strTruthy t = true) :
    chatFilename iso (some "markdown") (some t)
        = sanitizeTimestamp iso ++ "-" ++ slugify t ++ ".md" ∧
    markdownContent "1/1/2025, 12:00:00 AM" scenarioConfig
        [⟨Role.user, "hi"⟩, ⟨Role.assistant, "hello"⟩]
        = "# Chat - 1/1/2025, 12:00:00 AM\n\n**Model**: m1 (anthropic)\n\n---\n\n" ++
          "## User\n\nhi\n\n---\n\n## Assistant\n\nhello\n\n---\n\n" := by
  constructor
  · simp [chatFilename, fileExtension, formatToUse, ht, String.append_assoc]
  · rfl

/-- C2, witness: the amended naming rule evaluated at the scenario's
timestamp and title. -/
theorem C2_markdown_save_witness :
    chatFilename "2025-01-01T00:00:00.000Z" (some "markdown") (some "Demo")
        = sanitizeTimestamp "2025-01-01T00:00:00.000Z" ++ "-" ++ slugify "Demo" ++ ".md" :=
  (C2_markdown_save_naming_and_content "2025-01-01T00:00:00.000Z" "Demo" rfl).1

/-! ## C3: when the provider binding is reconstructed -/

/-- C3, counterexample: an `updateConfig` call that provides only
`systemPrompt` — provider, model, apiKey, temperature and maxTokens all
absent — still reconstructs the model object: the construction counter
increments, contradicting the claim that no reconstruction occurs for
changes touching only systemPrompt, saveDirectory or saveFormat. -/
theorem C3_rebuild_despite_orthogonal_update :
    service0.modelGen = 0 ∧
    ({ systemPrompt := some (some "Be concise.") } : ConfigPatch).provider = none ∧
    (service0.updateConfig env0
        { systemPrompt := some (some "Be concise.") }).modelGen = 1 :=
  ⟨rfl, rfl, rfl⟩

/-- C3, amended: `updateConfig` reconstructs the model binding on every call,
whichever fields are provided; when none of provider, model, apiKey,
temperature and maxTokens is provided, the freshly constructed binding has
the same constructor parameters as the previous one (reconstruction is
redundant but harmless), provided the previous binding matched the config. -/
theorem C3_rebuild_on_every_update (env : Env) (s : LLMService) (nc : ConfigPatch)
    (hinv : s.model = buildModel env s.config) :
    (s.updateConfig env nc).modelGen = s.modelGen + 1 ∧
    (nc.provider = none → nc.model = none → nc.apiKey = none →
      nc.temperature = none → nc.maxTokens = none →
      (s.updateConfig env nc).model = s.model) := by
  constructor
  · rfl
  · intro hp hm hk ht hx
    show buildModel env (mergeConfig s.config nc) = s.model
    rw [hinv]
    apply buildModel_eq_of_fields <;> simp [mergeConfig, hp, hm, hk, ht, hx]

/-- C3, witness: the always-rebuild theorem evaluated on the default service
with a systemPrompt-only update. -/
theorem C3_rebuild_witness :
    (service0.updateConfig env0
        { systemPrompt := some (some "Be concise.") }).modelGen
      = service0.modelGen + 1 ∧
    (service0.updateConfig env0
        { systemPrompt := some (some "Be concise.") }).model = service0.model :=
  ⟨(C3_rebuild_on_every_update env0 service0 _ rfl).1,
   (C3_rebuild_on_every_update env0 service0 _ rfl).2 rfl rfl rfl rfl rfl⟩

/-! ## C4: getConfig snapshot aliasing -/

/-- Writing a cell and reading it back yields the written value. -/
theorem listGetD_set_self {α : Type} (l : List α) (i : ℕ) (a d : α)
    (h : i < l.length) : (l.set i a).getD i d = a := by
  induction l generalizing i with
  | nil => simp at h
  | cons x xs ih =>
    cases i with
    | zero => rfl
    | succ n => exact ih n (Nat.lt_of_succ_lt_succ h)

/-- Writing one cell leaves every other cell unchanged. -/
theorem listGetD_set_ne {α : Type} (l : List α) (i j : ℕ) (a d : α)
    (h : i ≠ j) : (l.set i a).getD j d = l.getD j d := by
  induction l generalizing i j with
  | nil => rfl
  | cons x xs ih =>
    cases i with
    | zero =>
      cases j with
      | zero => exact absurd rfl h
      | succ m => rfl
    | succ n =>
      cases j with
      | zero => rfl
      | succ m => exact ih n m fun hnm => h (congrArg Nat.succ hnm)

/-- Reading the cell just appended yields the appended value. -/
theorem listGetD_append_length {α : Type} (l : List α) (x d : α) :
    (l ++ [x]).getD l.length d = x := by
  induction l with
  | nil => rfl
  | cons y ys ih => exact ih

/-- C4, counterexample: `getConfig` returns `this.config` itself, so a caller
that mutates the returned object changes what the next `getConfig` sees —
the live config's temperature flips from 0.7 to 0 through the snapshot,
contradicting the claim that the snapshot shares no mutable structure with
the live config. -/
theorem C4_snapshot_mutation_visible :
    (store0.deref store0.getConfigRef).temperature = 7/10 ∧
    ((store0.mutate store0.getConfigRef fun c => { c with temperature := 0 }).deref
        (store0.mutate store0.getConfigRef fun c =>
          { c with temperature := 0 }).getConfigRef).temperature = 0 :=
  ⟨rfl, rfl⟩

/-- C4, amended: the value `getConfig` returns aliases the live config — any
mutation through it is visible to the next `getConfig` call; only after an
`updateConfig` (which installs a fresh deep copy in a new object) does
mutating the previously returned snapshot stop affecting what `getConfig`
returns. -/
theorem C4_snapshot_aliasing (st : ConfigStore) (f : LLMConfig → LLMConfig)
    (nc : ConfigPatch) (h : st.live < st.cells.length) :
    (st.mutate st.getConfigRef f).deref (st.mutate st.getConfigRef f).getConfigRef
        = f (st.deref st.getConfigRef) ∧
    ((st.updateConfig nc).mutate st.getConfigRef f).deref
        ((st.updateConfig nc).mutate st.getConfigRef f).getConfigRef
      = (st.updateConfig nc).deref (st.updateConfig nc).getConfigRef := by
  constructor
  · exact listGetD_set_self st.cells st.live _ _ h
  · show ((st.cells ++ [_]).set st.live _).getD st.cells.length _ = _
    rw [listGetD_set_ne _ st.live st.cells.length _ _ (Nat.ne_of_lt h)]
    rfl

/-- C4, witness: on the one-cell default store, mutating through the
snapshot reference rewrites the live config. -/
theorem C4_snapshot_aliasing_witness :
    (store0.mutate store0.getConfigRef fun c => { c with temperature := 0 }).deref
        (store0.mutate store0.getConfigRef fun c =>
          { c with temperature := 0 }).getConfigRef
      = { store0.deref store0.getConfigRef with temperature := 0 } :=
  (C4_snapshot_aliasing store0 (fun c => { c with temperature := 0 }) {}
    (by decide)).1

/-! ## C5: system prompt prepension in sendMessage -/

/-- C5, confirmed: with a truthy `systemPrompt` and no system-role message in
the conversation, the sequence handed to the provider is the converted
`[system(prompt)] ++ C`, and the caller's conversation after the call is
unchanged (second component); when some message already has role system, no
synthetic message is prepended. -/
theorem C5_system_prompt_prepension (config : LLMConfig) (C : List Message)
    (p : String) (hp : config.systemPrompt = some p) (hne : p ≠ "") :
    ((∀ m ∈ C, m.role ≠ Role.system) →
      sendMessageCall config C
        = (((⟨Role.system, p⟩ : Message) :: C).map convertMessage, C)) ∧
    ((∃ m ∈ C, m.role = Role.system) →
      sendMessageCall config C = (C.map convertMessage, C)) := by
  constructor
  · intro hno
    have hany : (C.any fun msg => msg.role == Role.system) = false := by
      simp only [List.any_eq_false, beq_iff_eq]
      exact hno
    simp [sendMessageCall, sentMessages, hp, hany, optStrTruthy, strTruthy,
      hne, convertMessage]
  · intro hsys
    have hany : (C.any fun msg => msg.role == Role.system) = true := by
      simp only [List.any_eq_true, beq_iff_eq]
      exact hsys
    simp [sendMessageCall, sentMessages, hany]

/-- C5, witness: the default config's prompt is prepended to a one-message
conversation, and the conversation itself is returned unchanged. -/
theorem C5_system_prompt_witness :
    sendMessageCall (defaultConfig env0) [⟨Role.user, "hi"⟩]
      = ([LCMessage.system "You are a helpful AI assistant.", LCMessage.human "hi"],
         [⟨Role.user, "hi"⟩]) :=
  (C5_system_prompt_prepension (defaultConfig env0) [⟨Role.user, "hi"⟩]
      "You are a helpful AI assistant." rfl (by decide)).1 (by decide)

/-! ## C6: filesystem error wrapping in saveChat -/

/-- C6, counterexample: a write failure whose underlying message is
`disk full` is wrapped into `Failed to save chat: disk full` — a message
that does not contain the attempted file path
(`chats/2025-01-01T00-00-00-000Z-chat.json`, as the successful run of the
same call shows), contradicting the claim that the error names the attempted
path. -/
theorem C6_error_message_lacks_path :
    saveChat (defaultConfig env0) env0 "2025-01-01T00:00:00.000Z" "1/1/2025" []
        none (.ok ()) (fun _ _ => .error "disk full")
      = .error "Failed to save chat: disk full" ∧
    saveChat (defaultConfig env0) env0 "2025-01-01T00:00:00.000Z" "1/1/2025" []
        none (.ok ()) (fun _ _ => .ok ())
      = .ok "chats/2025-01-01T00-00-00-000Z-chat.json" ∧
    strContainsSub "Failed to save chat: disk full"
        "chats/2025-01-01T00-00-00-000Z-chat.json" = false :=
  ⟨rfl, rfl, by decide⟩

/-- C6, amended: every filesystem failure during save (directory creation or
file write) is caught and wrapped into a single error whose message is
`Failed to save chat: ` followed by the underlying error message — the
attempted path appears only if the underlying message contains it. -/
theorem C6_fs_error_wrapping (config : LLMConfig) (env : Env)
    (iso fd : String) (msgs : List Message) (title : Option String) (e : String)
    (write : String → FileContent → Except String Unit)
    (hw : ∀ p c, write p c = .error e) :
    saveChat config env iso fd msgs title (.ok ()) write
        = .error ("Failed to save chat: " ++ e) ∧
    saveChat config env iso fd msgs title (.error e) write
        = .error ("Failed to save chat: " ++ e) := by
  constructor
  · simp [saveChat, hw]
  · rfl

/-- C6, witness: the wrapping rule evaluated on a concrete failing write. -/
theorem C6_fs_error_wrapping_witness :
    saveChat (defaultConfig env0) env0 "2025-01-01T00:00:00.000Z" "1/1/2025" []
        none (.ok ()) (fun _ _ => .error "disk full")
      = .error ("Failed to save chat: " ++ "disk full") :=
  (C6_fs_error_wrapping (defaultConfig env0) env0 "2025-01-01T00:00:00.000Z"
    "1/1/2025" [] none "disk full" _ (fun _ _ => rfl)).1

/-! ## C7: json fallback for unrecognized save formats -/

/-- C7, confirmed: whenever `saveFormat` is anything but the exact string
`markdown` (absent, empty, or any other value), the format used is json and
the extension json — the save writes a JSON value, never markdown text — and
markdown is chosen exactly when `saveFormat` equals `markdown`. -/
theorem C7_json_fallback (config : LLMConfig) (env : Env) (iso fd : String)
    (msgs : List Message) (title : Option String)
    (h : config.saveFormat ≠ some "markdown") :
    formatToUse config.saveFormat = "json" ∧
    fileExtension config.saveFormat = "json" ∧
    saveChat config env iso fd msgs title (.ok ())
        (fun _ c => match c with
          | .markdown _ => .error "markdown text was written"
          | .json _ => .ok ())
      = .ok (pathJoin (resolveSaveDir config env)
          (chatFilename iso config.saveFormat title)) ∧
    (∀ sf : Option String, formatToUse sf = "markdown" ↔ sf = some "markdown") := by
  have hf : formatToUse config.saveFormat = "json" := by
    simp [formatToUse, h]
  refine ⟨hf, ?_, ?_, ?_⟩
  · simp [fileExtension, hf]
  · simp [saveChat, hf]
  · intro sf
    constructor
    · intro hm
      by_contra hne
      simp [formatToUse, hne] at hm
    · intro hm
      simp [formatToUse, hm]

/-- C7, witness: an absent `saveFormat` falls back to json. -/
theorem C7_json_fallback_witness :
    formatToUse ({ defaultConfig env0 with saveFormat := none } : LLMConfig).saveFormat
      = "json" :=
  (C7_json_fallback { defaultConfig env0 with saveFormat := none } env0 "t" "d"
    [] none (by decide)).1

/-! ## C8: json round trip preserves messages, provider and model -/

/-- Decoding one serialized message recovers it verbatim. -/
theorem decodeMessage_messageJson (m : Message) :
    decodeMessage (messageJson m) = some m := by
  cases m with
  | mk r c =>
    cases r <;>
      simp [messageJson, decodeMessage, Json.getField, Json.asStr, decodeRole,
        Role.name, List.find?]

/-- C8, confirmed: re-parsing the JSON value `saveChat` writes yields the
original conversation verbatim — roles, contents and order preserved — and
the `provider` and `model` fields hold the config's provider and model at
save time (the stringify/parse pair of the runtime being inverse on JSON
values). -/
theorem C8_json_roundtrip (iso : String) (config : LLMConfig)
    (msgs : List Message) :
    decodeMessages (chatDataJson iso config msgs) = some msgs ∧
    (chatDataJson iso config msgs).getField "provider"
        = some (.str config.provider.name) ∧
    (chatDataJson iso config msgs).getField "model"
        = some (.str config.model) := by
  refine ⟨?_, rfl, rfl⟩
  show decodeMessageList (msgs.map messageJson) = some msgs
  induction msgs with
  | nil => rfl
  | cons m ms ih => simp [decodeMessageList, decodeMessage_messageJson, ih]

/-! ## C9: non-numeric temperature and maxTokens inputs coerce to defaults -/

/-- C9, confirmed: when the settings view's temperature field parses to `NaN`
and/or its maxTokens field parses to `NaN`, saving the settings does not
fail: the config installed by `updateConfig` carries the fallback values 0.7
and 1000. -/
theorem C9_nonnumeric_inputs_coerce (env : Env) (s : LLMService) (p : Provider)
    (model apiKey tIn mIn sysP fmt : String)
    (ht : parseFloatJS tIn = none) (hm : parseIntJS mIn = none) :
    (s.updateConfig env
        (saveSettingsInput s.config p model apiKey tIn mIn sysP fmt)).config.temperature
        = 7/10 ∧
    (s.updateConfig env
        (saveSettingsInput s.config p model apiKey tIn mIn sysP fmt)).config.maxTokens
        = 1000 := by
  constructor
  · show settingsTemperature tIn = 7/10
    simp [settingsTemperature, ht, jsNumOr]
  · show settingsMaxTokens mIn = 1000
    simp [settingsMaxTokens, hm, jsIntOr]

/-- C9, witness: the inputs `abc` (temperature) and `xyz` (maxTokens) coerce
to 0.7 and 1000. -/
theorem C9_nonnumeric_inputs_witness :
    (service0.updateConfig env0
        (saveSettingsInput service0.config Provider.anthropic "m" "" "abc" "xyz"
          "sp" "json")).config.temperature = 7/10 ∧
    (service0.updateConfig env0
        (saveSettingsInput service0.config Provider.anthropic "m" "" "abc" "xyz"
          "sp" "json")).config.maxTokens = 1000 :=
  C9_nonnumeric_inputs_coerce env0 service0 Provider.anthropic "m" "" "abc" "xyz"
    "sp" "json" (by decide) (by decide)

/-! ## C10: the input 0 is treated like invalid input -/

/-- C10, confirmed: `parseFloat(x) || 0.7` and `parseInt(x) || 1000` are
falsy at zero, so the valid input `0` yields the fallbacks 0.7 and 1000 —
and no input string whatsoever can configure a zero temperature or a zero
token limit through the settings view. -/
theorem C10_zero_input_coerces_to_defaults :
    settingsTemperature "0" = 7/10 ∧ settingsMaxTokens "0" = 1000 ∧
    (∀ s : String, settingsTemperature s ≠ 0 ∧ settingsMaxTokens s ≠ 0) := by
  have h0 : parseFloatJS "0" = some 0 := by
    have h : parseFloatParts "0" = some (false, 0, 0, 0) := by decide
    simp [parseFloatJS, h]
  refine ⟨?_, by decide, ?_⟩
  · simp [settingsTemperature, h0, jsNumOr]
  · intro s
    constructor
    · cases hps : parseFloatJS s with
      | none => norm_num [settingsTemperature, jsNumOr, hps]
      | some v =>
        by_cases hv : v = 0
        · norm_num [settingsTemperature, jsNumOr, hps, hv]
        · simp [settingsTemperature, jsNumOr, hps, hv]
    · cases hps : parseIntJS s with
      | none => norm_num [settingsMaxTokens, jsIntOr, hps]
      | some v =>
        by_cases hv : v = 0
        · norm_num [settingsMaxTokens, jsIntOr, hps, hv]
        · simp [settingsMaxTokens, jsIntOr, hps, hv]

end InkLLM
